import Mathlib

/-!
Verification of the Cpp-Deprecation-Linter repository.

The development shallowly embeds `Source/tokenizer.py` (class `Tokenizer`,
methods `_sanitize_add_token` and `_parse_file`) and the matching layer of
`Source/deprecation-check.py` (function `tokenize_file` together with the four
module-level advisory dictionaries).  File contents are modelled as `List Char`;
the scanner is a character-driven state machine, rendered here as a
structurally recursive function `scanLoop` that consumes exactly one character
per step.  Multi-character consumptions of the Python code (`readline()`,
`read(1..3)` used for peeking-free skips) are rendered as dedicated skip modes
so that every recursive call is on the tail of the input; this keeps every
definition computable and kernel-reducible.

Besides the emitted tokens, `scanLoop` records into which lexical category
every consumed character fell (`nchars` = buffered normal-code characters,
`wchars` = normal-mode whitespace and construct-trigger characters, `lchars` =
characters consumed by `readline()` for a `//` comment, `cchars` = characters
consumed while inside a `/* ... */` comment, `schars` = characters consumed
while inside a string literal, `qchars` = characters blindly skipped after a
`'`).  These extra fields are pure instrumentation: they never influence the
tokens, and make provenance properties of the scanner statable.
-/

/-- Python's `str.isspace()` on a single character, restricted to the code
points Python treats as whitespace (ASCII whitespace, the C1 controls
`\x1c`-`\x1f`, `\x85`, `\xa0`, and the Unicode space separators). -/
def pyIsSpace (c : Char) : Bool :=
  [9, 10, 11, 12, 13, 28, 29, 30, 31, 32, 133, 160, 5760, 8192, 8193, 8194,
    8195, 8196, 8197, 8198, 8199, 8200, 8201, 8202, 8232, 8233, 8239, 8287,
    12288].contains c.toNat

/-- Python's `str.isspace()` on a string: nonempty and all whitespace. -/
def strIsSpace (cs : List Char) : Bool :=
  !cs.isEmpty && cs.all pyIsSpace

/-- The character class of the second `re.sub` in
`Tokenizer._sanitize_add_token` (pattern `[()!` then the range from `+` to
`/`, then `*~^#?:><&|;` and braces).  A plus-minus-slash run inside a regex
character class is the range U+002B..U+002F, so it also covers `,` and `.`. -/
def punctChar (c : Char) : Bool :=
  ['(', ')', '!', '+', ',', '-', '.', '/', '*', '~', '^', '#', '?', ':',
    '>', '<', '&', '|', ';', '{', '}'].contains c

/-- One left-to-right pass of `re.sub("<[^>]*>", "", s)`: starting at the
leftmost `<`, if a `>` follows then the whole span up to and including the
first such `>` is removed and scanning resumes after it; a `<` with no later
`>` is kept together with the rest of the string.  The `pend` argument holds
(reversed) the characters seen since a still-open `<`. -/
def clipAngleAux : List Char → Option (List Char) → List Char
  | [], none => []
  | [], some pend => '<' :: pend.reverse
  | c :: rest, none =>
      if c = '<' then clipAngleAux rest (some [])
      else c :: clipAngleAux rest none
  | c :: rest, some pend =>
      if c = '>' then clipAngleAux rest none
      else clipAngleAux rest (some (c :: pend))

/-- `re.sub("<[^>]*>", "", s)` from `Tokenizer._sanitize_add_token`. -/
def clipAngle (cs : List Char) : List Char :=
  clipAngleAux cs none

/-- The second `re.sub` of `Tokenizer._sanitize_add_token`: every character
of the `punctChar` class is replaced by a space. -/
def replacePunct (cs : List Char) : List Char :=
  cs.map fun c => if punctChar c then ' ' else c

/-- Python's `s.split(" ")` followed by dropping empty items (the
`if item:` filter): the maximal groups of non-space characters. -/
def splitSpaceAux : List Char → List Char → List (List Char)
  | [], cur => if cur.isEmpty then [] else [cur.reverse]
  | c :: rest, cur =>
      if c = ' ' then
        if cur.isEmpty then splitSpaceAux rest []
        else cur.reverse :: splitSpaceAux rest []
      else splitSpaceAux rest (c :: cur)

def splitSpace (cs : List Char) : List (List Char) :=
  splitSpaceAux cs []

/-- `class Token` of `Source/tokenizer.py`: a line number and the token
text. -/
structure Token where
  linenumber : Nat
  string : List Char
deriving DecidableEq

/-- `Tokenizer._sanitize_add_token`: clip `<...>` spans, replace punctuation
by spaces, split on spaces and emit one `Token` per nonempty fragment, all
carrying the given line number. -/
def sanitize_add_token (linenum : Nat) (s : List Char) : List Token :=
  (splitSpace (replacePunct (clipAngle s))).map fun w => Token.mk linenum w

/-- Lexical mode of the scanner.  `normal`, `comment` (inside `/* ... */`)
and `instring` correspond to the Python state variables; the remaining modes
encode the multi-character reads of the Python loop as one-character steps:
`lineC` is the `readline()` of a `//` comment, `skipc` is the `read(1)` that
consumes the `/` of a closing `*/`, `strEsc` is the `read(1)` after a `\` in
a string, and `skipq n` is the `read(2)`/`read(3)` after a `'` with `n + 1`
characters still to skip.  Characters consumed in `lineC`, `skipc`, `strEsc`
and `skipq` bypass the `linenum` update at the top of the Python loop. -/
inductive Mode where
  | normal
  | comment
  | instring
  | strEsc
  | lineC
  | skipc
  | skipq (n : Nat)
deriving DecidableEq

/-- Result of a scan: the emitted tokens plus instrumentation recording the
lexical category of every consumed character, the final line counter and the
final (discarded) token buffer. -/
structure ScanOut where
  tokens : List Token
  nchars : List Char
  wchars : List Char
  lchars : List Char
  cchars : List Char
  schars : List Char
  qchars : List Char
  lnEnd : Nat
  bufEnd : List Char
deriving DecidableEq

def ScanOut.addTok (ts : List Token) (o : ScanOut) : ScanOut :=
  { o with tokens := ts ++ o.tokens }

def ScanOut.addN (c : Char) (o : ScanOut) : ScanOut :=
  { o with nchars := c :: o.nchars }

def ScanOut.addW (c : Char) (o : ScanOut) : ScanOut :=
  { o with wchars := c :: o.wchars }

def ScanOut.addL (c : Char) (o : ScanOut) : ScanOut :=
  { o with lchars := c :: o.lchars }

def ScanOut.addC (c : Char) (o : ScanOut) : ScanOut :=
  { o with cchars := c :: o.cchars }

def ScanOut.addS (c : Char) (o : ScanOut) : ScanOut :=
  { o with schars := c :: o.schars }

def ScanOut.addQ (c : Char) (o : ScanOut) : ScanOut :=
  { o with qchars := c :: o.qchars }

/-- The `while` loop of `Tokenizer._parse_file`, one consumed character per
step.  Faithful renderings to note:
* the top-of-loop `if linechar == "\n": linenum += 1` happens before the
  dispatch, so a token flushed by a newline carries the incremented number;
* a `/` whose peek is `/` enters `lineC`, which consumes up to and including
  the newline and only then adds 1 to the counter (the Python code calls
  `readline()` and increments immediately; deferring the increment to the
  consumed newline is observably identical, and at end of file `lnEnd`
  adds the 1 exactly as Python does);
* a `/` whose peek is `*` enters `comment` without consuming the `*`, so that
  very `*` is tested against the following character as a potential `*/`
  (hence `/*/` opens and immediately closes a comment, as in the source);
* a `'` consumes 3 following characters when the peek is `\` and otherwise 2,
  blindly, with no terminator test (`sourcefile.read(3)` / `read(2)`);
* reaching `[]` (end of file) discards the token buffer: the Python loop
  simply ends without a final flush. -/
def scanLoop : Mode → List Char → Nat → List Char → ScanOut
  | m, [], ln, tok =>
      ScanOut.mk [] [] [] [] [] [] []
        (match m with | Mode.lineC => ln + 1 | _ => ln) tok
  | Mode.normal, c :: rest, ln, tok =>
      let ln2 := if c = '\n' then ln + 1 else ln
      if c = '/' ∧ rest.head? = some '/' then
        ScanOut.addW c (scanLoop Mode.lineC rest ln2 tok)
      else if c = '/' ∧ rest.head? = some '*' then
        ScanOut.addW c (scanLoop Mode.comment rest ln2 tok)
      else if c = '"' then
        ScanOut.addW c (scanLoop Mode.instring rest ln2 tok)
      else if c = '\'' then
        if rest.head? = some '\\' then
          ScanOut.addW c (scanLoop (Mode.skipq 2) rest ln2 tok)
        else
          ScanOut.addW c (scanLoop (Mode.skipq 1) rest ln2 tok)
      else if pyIsSpace c ∧ strIsSpace tok = false then
        ScanOut.addTok (sanitize_add_token ln2 tok)
          (ScanOut.addW c (scanLoop Mode.normal rest ln2 []))
      else
        ScanOut.addN c (scanLoop Mode.normal rest ln2 (tok ++ [c]))
  | Mode.comment, c :: rest, ln, tok =>
      let ln2 := if c = '\n' then ln + 1 else ln
      if c = '*' ∧ rest.head? = some '/' then
        ScanOut.addC c (scanLoop Mode.skipc rest ln2 tok)
      else
        ScanOut.addC c (scanLoop Mode.comment rest ln2 tok)
  | Mode.skipc, c :: rest, ln, tok =>
      ScanOut.addC c (scanLoop Mode.normal rest ln tok)
  | Mode.instring, c :: rest, ln, tok =>
      let ln2 := if c = '\n' then ln + 1 else ln
      if c = '\\' then
        ScanOut.addS c (scanLoop Mode.strEsc rest ln2 tok)
      else if c = '"' then
        ScanOut.addS c (scanLoop Mode.normal rest ln2 tok)
      else
        ScanOut.addS c (scanLoop Mode.instring rest ln2 tok)
  | Mode.strEsc, c :: rest, ln, tok =>
      ScanOut.addS c (scanLoop Mode.instring rest ln tok)
  | Mode.lineC, c :: rest, ln, tok =>
      if c = '\n' then ScanOut.addL c (scanLoop Mode.normal rest (ln + 1) tok)
      else ScanOut.addL c (scanLoop Mode.lineC rest ln tok)
  | Mode.skipq n, c :: rest, ln, tok =>
      ScanOut.addQ c
        (scanLoop (if n = 0 then Mode.normal else Mode.skipq (n - 1)) rest ln tok)

/-- `Tokenizer._parse_file` applied to the given file contents: initial state
is `normal`, line 1, empty buffer. -/
def scanFile (s : String) : ScanOut :=
  scanLoop Mode.normal s.toList 1 []

/-- The token list a `Tokenizer` constructed on a file with contents `s`
ends up holding (`self._tokenlist`). -/
def parse_file (s : String) : List Token :=
  (scanFile s).tokens

/-- Modelled from the spec: the `ParseError` error type the specification
attributes to the scanner ("with the offending file and approximate line
attached").  No such class, and no `raise`, exists anywhere in
`Source/tokenizer.py`. -/
structure ParseError where
  file : String
  line : Nat

/-- The result of running the scanner, with room for the `ParseError` the
specification says can be raised.  Since `Tokenizer._parse_file` contains no
`raise` statement on any path, the embedding always returns `Except.ok`. -/
def tokenizeFileE (s : String) : Except ParseError (List Token) :=
  Except.ok (parse_file s)

/-- All characters the scanner consumed, in category order: buffered
normal-code characters, other normal-mode characters, line-comment
characters, block-comment characters, string characters, quote-skipped
characters. -/
def ScanOut.consumed (o : ScanOut) : List Char :=
  o.nchars ++ (o.wchars ++ (o.lchars ++ (o.cchars ++ (o.schars ++ o.qchars))))

/-- The concatenated text of a list of tokens. -/
def tokensChars (ts : List Token) : List Char :=
  ts.flatMap Token.string

/-- Modelled from the spec: the reference tokenization for inputs free of
comment and literal constructs ("the token sequence equals the
whitespace-split sequence of the input (after sanitization rules)").  The
input is cut at each whitespace character; the run before the cut is passed
through the sanitization rules; the line number attached is the line counter
after consuming the terminating whitespace character (newlines included); a
final run terminated by end of file is discarded. -/
def specSplitTokens (cs : List Char) (ln : Nat) : List Token :=
  match h : cs.dropWhile (fun c => !pyIsSpace c) with
  | [] => []
  | w :: rest =>
      let run := cs.takeWhile (fun c => !pyIsSpace c)
      let ln2 := if w = '\n' then ln + 1 else ln
      sanitize_add_token ln2 run ++ specSplitTokens rest ln2
termination_by cs.length
decreasing_by
  have h1 : ∀ l : List Char, (l.dropWhile (fun c => !pyIsSpace c)).length ≤ l.length := by
    intro l
    induction l with
    | nil => simp
    | cons c r ih =>
        by_cases hc : (!pyIsSpace c) = true
        · simp only [List.dropWhile, hc, List.length_cons]
          exact ih.trans (Nat.le_succ _)
        · simp [List.dropWhile, hc]
  have h2 := h1 cs
  rw [h] at h2
  simp only [List.length_cons] at h2
  omega

/-- Modelled from the spec: which positions of the input lie inside a
`/* ... */` block-comment span under C/C++ comment rules, where the opening
`/*` is consumed as a unit so its `*` cannot also serve as part of the
closer, and an unterminated comment extends to end of file.  The Bool
argument is "currently inside a comment"; the result marks each character of
the input. -/
def cMark : Bool → List Char → List Bool
  | _, [] => []
  | false, '/' :: '*' :: rest => true :: true :: cMark true rest
  | false, _ :: rest => false :: cMark false rest
  | true, '*' :: '/' :: rest => true :: true :: cMark false rest
  | true, _ :: rest => true :: cMark true rest

/-- Modelled from the spec: which positions of the input lie inside a string
literal or a character literal, with backslash escapes respected (the
character after a `\` is skipped and never tested as a terminator), and a
literal left open at end of file extending to the end.  The state is 0 for
normal code, 1 inside a `"` literal, 2 inside a `'` literal. -/
def litMark : Nat → List Char → List Bool
  | _, [] => []
  | 0, '"' :: rest => true :: litMark 1 rest
  | 0, '\'' :: rest => true :: litMark 2 rest
  | 0, _ :: rest => false :: litMark 0 rest
  | 1, '\\' :: _ :: rest => true :: true :: litMark 1 rest
  | 1, '"' :: rest => true :: litMark 0 rest
  | 1, _ :: rest => true :: litMark 1 rest
  | 2, '\\' :: _ :: rest => true :: true :: litMark 2 rest
  | 2, '\'' :: rest => true :: litMark 0 rest
  | 2, _ :: rest => true :: litMark 2 rest
  | _, _ :: rest => false :: litMark 0 rest

/-- Input restriction of claim C3: the text contains no `"` or `'`
character and no two-character sequence opening a comment (`/` followed by
`/` or `*`). -/
def okC3 : List Char → Bool
  | [] => true
  | c :: rest =>
      !(c == '"') && !(c == '\'') &&
        !(c == '/' && (rest.head? == some '/' || rest.head? == some '*')) &&
        okC3 rest

/-- Input restriction used for the amended claim C6: no `"` or `'`
character and no `//` sequence (block comments are allowed). -/
def okC6 : List Char → Bool
  | [] => true
  | c :: rest =>
      !(c == '"') && !(c == '\'') &&
        !(c == '/' && rest.head? == some '/') &&
        okC6 rest

/-- No two adjacent characters of the list form the comment closer `*/`. -/
def noCloserIn : List Char → Bool
  | [] => true
  | c :: rest => !(c == '*' && rest.head? == some '/') && noCloserIn rest
/-- The `deprecatedDict` mapping of `Source/deprecation-check.py` (C/C++ standard library identifiers), in source order. -/
def deprecatedDict : List (String × String) := [
  ("auto_ptr", "auto_ptr is deprecated as of C++11. Consider using std::shared_ptr or std::unique_ptr."),
  ("binary_function", "binary_function is deprecated as of C++11. Consider using std::function instead."),
  ("binder1st", "binder1st is deprecated as of C++11. Consider using std::bind instead."),
  ("binder2nd", "binder2nd is deprecated as of C++11. Consider using std::bind instead."),
  ("bind1st", "bind1st is deprecated as of C++11. Consider using std::bind instead."),
  ("bind2nd", "bind2nd is deprecated as of C++11. Consider using std::bind instead."),
  ("CLK_TCK", "CLK_TCK is deprecated. Consider using CLOCKS_PER_SEC instead."),
  ("const_mem_fun_t", "const_mem_fun_t is deprecated as of C++11."),
  ("const_mem_fun1_t", "const_mem_fun1_t is deprecated as of C++11."),
  ("const_mem_fun_ref_t", "const_mem_fun_ref_t is deprecated as of C++11."),
  ("const_mem_fun1_ref_t", "const_mem_fun1_ref_t is deprecated as of C++11."),
  ("get_unexpected", "get_unexpected is deprecated as of C++11. Consider using noexcept instead."),
  ("gets", "gets is removed in the C11 and C++11 standards."),
  ("istrstream", "istrstream is deprecated as of C++11. Consider using std::istringstream instead."),
  ("mem_fun", "mem_fun is deprecated as of C++11. Consider using std::mem_fn instead."),
  ("mem_fun_ref", "mem_fun_ref is deprecated as of C++11. Consider std::mem_fn instead."),
  ("mem_fun_ref_t", "mem_fun_ref_t is deprecated as of C++11."),
  ("mem_fun1_ref_t", "mem_fun1_ref_t is deprecated as of C++11."),
  ("mem_fun_t", "mem_fun_t is deprecated as of C++11."),
  ("mem_fun1_t", "mem_fun1_t is deprecated as of C++11."),
  ("ostrstream", "ostrstream is deprecated as of C++11. Consider using std::ostringstream instead."),
  ("pointer_to_binary_function", "pointer_to_binary_function is deprecated as of C++11. Consider using std::bind or std::function instead."),
  ("pointer_to_unary_function", "pointer_to_unary_function is deprecated as of C++11. Consider using std::bind or std::function instead."),
  ("ptr_fun", "ptr_fun is deprecated as of C++11. Consider using std::function or std::ref instead."),
  ("random_shuffle", "random_shuffle is deprecated as of C++14. Consider using std::shuffle instead."),
  ("set_unexpected", "set_unexpected is deprecated as of C++11. Consider using noexcept instead."),
  ("strstream", "strstream is deprecated as of C++11. Consider using std::stringstream instead."),
  ("strstreambuf", "strstreambuf is deprecated as of C++11. Consider using std::stringstream instead."),
  ("unary_function", "unary_function is deprecated as of C++11. Consider using std::function instead."),
  ("unexpected", "unexpected is deprecated as of C++11."),
  ("unexpected_handler", "unexpected_handler is deprecated as of C++11.")
]

/-- The `cautionaryDict` mapping of `Source/deprecation-check.py` (functions that likely have better alternatives), in source order. -/
def cautionaryDict : List (String × String) := [
  ("alloca", "alloca can be a dangerous function to use.\nIf the allocation attempt by alloca causes a stack overflow, then behavior is undefined.\nConsider using malloc, new, an STL container, or a smart pointer."),
  ("itoa", "itoa is not a standardized library function.\nConsider using snprintf instead."),
  ("rand", "Use of rand is not recommended. Consider using the functionality provided in the <random> header instead."),
  ("scanf", "scanf can be a dangerous function to use.\nIt is more difficult to ensure the receiving buffer won\x27t overflow. Consider using sscanf instead."),
  ("srand", "Use of srand is not recommended. Consider using the functionality provided in the <random> header instead.")
]

/-- The `posixDict` mapping of `Source/deprecation-check.py` (POSIX API-related warnings), in source order. -/
def posixDict : List (String × String) := [
  ("bcmp", "bcmp is a POSIX legacy function, and is removed as of POSIX.1-2008. Consider using memcmp instead."),
  ("bcopy", "bcopy is a POSIX legacy function, and is removed as of POSIX.1-2008. Consider using memcpy instead."),
  ("bzero", "bzero is a POSIX legacy function, and is removed as of POSIX.1-2008. Consider using memset instead."),
  ("cuserid", "cuserid is a POSIX legacy function and is removed as of POSIX.1-2001. Consider replacing it with getpwuid(geteuid())."),
  ("ecvt", "ecvt is a POSIX legacy function. Consider using std::to_string or snprintf instead."),
  ("fcvt", "fcvt is a POSIX legacy function. Consider using std::to_string or snprintf instead."),
  ("ftime", "ftime is a POSIX legacy function. Consider using functions provided by the chrono header in C++11 instead."),
  ("gcvt", "gcvt is a POSIX legacy function. Consider using std::to_string or snprintf instead."),
  ("gethostbyaddr", "gethostbyaddr has been obsoleted in POSIX 1003.1. Consider using getaddrinfo instead."),
  ("gethostbyname", "gethostbyname has been obsoleted in POSIX 1003.1. Consider using getnameinfo instead."),
  ("getwd", "getwd is a POSIX legacy function. Consider using getcwd instead."),
  ("inet_addr", "inet_addr is a POSIX legacy function. Consider using getnameinfo or getaddrinfo instead."),
  ("inet_aton", "inet_aton is a POSIX legacy function. Consider using getnameinfo or getaddrinfo instead."),
  ("inet_lnaof", "inet_lnaof is a POSIX legacy function. Consider using getnameinfo or getaddrinfo instead."),
  ("inet_makeaddr", "inet_makeaddr is a POSIX legacy function. Consider using getnameinfo or getaddrinfo instead."),
  ("inet_netof", "inet_netof is a POSIX legacy function. Consider using getnameinfo or getaddrinfo instead."),
  ("inet_network", "inet_network is a POSIX legacy function. Consider using getnameinfo or getaddrinfo instead."),
  ("inet_nsap_addr", "inet_nsap_addr is a POSIX legacy function. Consider using getnameinfo or getaddrinfo instead."),
  ("inet_nsap_ntoa", "inet_nsap_ntoa is a POSIX legacy function. Consider using getnameinfo or getaddrinfo instead."),
  ("inet_ntoa", "inet_ntoa is a POSIX legacy function. Consider using getnameinfo or getaddrinfo instead."),
  ("inet_ntop", "inet_ntop is a POSIX legacy function. Consider using getnameinfo or getaddrinfo instead."),
  ("inet_pton", "inet_pton is a POSIX legacy function. Consider using getnameinfo or getaddrinfo instead."),
  ("mktemp", "mktemp is a POSIX legacy function. Consider using mkstemp instead, or investigate a cross platform solution."),
  ("utimes", "utimes is a POSIX legacy function. Consider using utime instead."),
  ("wcswcs", "wcswcs is a POSIX legacy function. Consider using wcsstr or std::wstring instead.")
]

/-- The `windowsDict` mapping of `Source/deprecation-check.py` (Windows API-related warnings), in source order. -/
def windowsDict : List (String × String) := [
  ("AddMRUStringW", "AddMRUStringW is deprecated as of Windows Vista."),
  ("AppendMenuWrapW", "AppendMenuWrapW should not be used. Consider using AppendMenuW instead."),
  ("CallCPLEntry16", "CallCPLEntry16 is removed as of Windows Vista."),
  ("CallWindowProcWrapW", "CallWindowProcWrapW should not be used. Consider using CallWindowProcW instead."),
  ("CanShareFolderW", "CanShareFolderW is deprecated as of Windows Vista."),
  ("ChangeWindowMessageFilter", "Using ChangeWindowMessageFilter is not recommended. It is recommended that ChangeWindowMessageFilterEx be used instead."),
  ("CharLowerWrapW", "CharLowerWrapW should not be used. Consider using CharLowerW instead."),
  ("CharUpperWrapW", "CharUpperWrapW should not be used. Consider using CharUpperW instead."),
  ("CharUpperBuffWrapW", "CharUpperBuffWrapW should not be used. Consider using CharUpperBuff instead."),
  ("CIDLData_CreateFromIDArray", "CIDLData_CreateFromIDArray is removed as of Windows Vista."),
  ("CompareStringWrapW", "CompareStringWrapW should not be used. Consider using CompareStringEx instead."),
  ("CopyFileWrapW", "CopyFileWrapW should not be used. Consider using CopyFile instead."),
  ("ConnectToConnectionPoint", "ConnectToConnectionPoint is deprecated as of Windows Vista."),
  ("CreateEventWrapW", "CreateEventWrapW should not be used. Consider using CreateEvent or CreateEventEx instead."),
  ("CreateFileWrapW", "CreateFileWrapW should not be used. Consider using CreateFile instead."),
  ("CreateHardwareMoniker", "CreateHardwareMoniker is deprecated as of Windows Vista."),
  ("CreateUserProfileEx", "CreateUserProfileEx has been removed in Windows Vista."),
  ("CreateWindowExWrapW", "CreateWindowExWrapW should not be used. Consider using CreateWindowEx instead."),
  ("CscSearchApiGetInterface", "CscSearchApiGetInterface is deprecated as of Windows 7."),
  ("DAD_AutoScroll", "DAD_AutoScroll is deprecated as of Windows Vista."),
  ("DAD_DragEnterEx", "DAD_DragEnterEx is deprecated as of Windows Vista. Consider using ImageList_DragEnter instead."),
  ("DAD_DragEnterEx2", "DAD_DragEnterEx2 is deprecated as of Windows Vista. Consider using ImageList_DragEnter instead."),
  ("DAD_DragLeave", "DAD_DragLeave is deprecated as of Windows Vista. Consider using ImageList_DragLeave instead."),
  ("DAD_DragMove", "DAD_DragMove is deprecated as of Windows Vista. Consider using ImageList_DragMove instead."),
  ("DAD_SetDragImage", "DAD_SetDragImage is deprecated as of Windows Vista. Consider using ImageList_BeginDrag instead."),
  ("DAD_ShowDragImage", "DAD_ShowDragImage is deprecated as of Windows Vista. Consider using ImageList_DragShowNoLock instead."),
  ("DoEnvironmentSubst", "DoEnvironmentSubst is deprecated as of Windows Vista. Consider using ExpandEnvironmentStrings instead."),
  ("DefWindowProcWrapW", "DefWindowProcWrapW should not be used. Consider using DefWindowProc instead."),
  ("DeleteFileWrapW", "DeleteFileWrapW should not be used. Consider using DeleteFile instead."),
  ("DialogBoxParamWrapW ", "DialogBoxParamWrapW should not be used. Consider using DialogBoxParam instead."),
  ("DispatchMessageWrapW", "DispatchMessage should not be used. Consider using DispatchMessage instead."),
  ("DragQueryFileWrapW", "DragQueryFileWrapW should not be used. Consider using DragQueryFile instead."),
  ("DrawTextExWrapW", "DrawTextExWrapW should not be used. Consider using DrawTextEx instead."),
  ("DrawTextWrapW", "DrawTextWrapW should not be used. Consider using DrawText instead."),
  ("DriveType", "DriveType is deprecated as of Windows Vista. Consider using GetDriveType in the Volume Management API instead."),
  ("EnumMRUListW", "EnumMRUListW is deprecated as of Windows Vista."),
  ("EstimateFileRisk", "EstimateFileRisk is deprecated as of Windows Vista. IAttachmentExecute should be used instead."),
  ("ExtractAssociatedIconEx", "ExtractAssociatedEx is deprecated."),
  ("ExtTextOutWrapW", "ExtTextOutWrapW should not be used. Consider using ExtTextOut instead."),
  ("FindResourceWrapW", "FindResourceWrapW should not be used. Consider using FindResourceW instead."),
  ("FormatMessageWrapW", "FormatMessageWrapW should not be used. Consider using FormatMessage instead."),
  ("GetClassInfo", "GetClassInfo has been superseded by GetClassInfoEx. Consider using it instead."),
  ("GetClassInfoWrapW", "GetClassInfoWrapW should not be used. Consider using GetClassInfoEx instead."),
  ("GetClassLong", "GetClassLong has been superseded by GetClassLongPtr. Consider using it instead to have 32-bit and 64-bit compatible code."),
  ("GetClassWord", "GetClassWord is a compatibility function for 16-bit versions of Windows. Strongly consider using GetClassLongPtr instead."),
  ("GetDateFormatWrapW", "GetDateFormatWrapW should not be used. Consider using GetDateFormatEx instead."),
  ("GetDlgItemTextWrapW", "GetDlgItemTextWrapW should not be used. Consider using GetDlgItemTextWrapW instead."),
  ("GetFileAttributesWrapW", "GetFileAttributesWrapW should not be used. Consider using GetFileAttributes or GetFileAttributesEx instead."),
  ("GetFileNameFromBrowse", "GetFileNameFromBrowse is deprecated as of Windows Vista."),
  ("GetLocaleInfoWrapW", "GetLocaleWrapW should not be used. Consider using GetLocalInfoEx instead."),
  ("GetMenuItemInfoWrapW", "GetMenuItemInfoWrapW should not be used. Consider using GetMenuItemInfo instead"),
  ("GetMenuPosFromID", "GetMenuPosFromID is deprecated."),
  ("GetModuleFileNameWrapW", "GetModuleFileNameWrapW should not be used. Consider using GetModuleFileName or GetModuleFileNameEx instead."),
  ("GetModuleHandleWrapW", "GetModuleHandleWrapW should not be used. Consider using GetModuleHandle or GetModuleHandleEx instead."),
  ("GetObjectWrapW", "GetObjectWrapW should not be used. Consider using GetObject instead."),
  ("GetOpenFileName", "GetOpenFileName has been superseded by the Common Item Dialog in Windows Vista. Consider using it instead."),
  ("GetOpenFileNameWrapW", "GetOpenFileNameWrapW should not be used. Consider using the Common Item Dialog instead."),
  ("GetSaveFileName", "GetSaveFileName has been superseded by the Common Item Dialog in Windows Vista. Consider using it instead."),
  ("GetSaveFileNameWrapW", "GetSaveFileNameWrapW should not be used. Consider using the Common Item Dialog instead."),
  ("GetSystemDirectoryWrapW", "GetSystemDirectoryWrapW should not be used. Consider using GetSystemDirectory instead."),
  ("GetTimeFormatWrapW", "GetTimeFormatWrapW should not be used. Consider using GetTimeFormatW instead."),
  ("GetVersionEx", "GetVersionEx is deprecated as of Windows 8.1. Consider using the Version Helper API functions instead."),
  ("GetWindowLong", "GetWindowLong has been superseded by GetWindowLongPtr. Consider using it instead to have 32-bit and 64-bit compatible code."),
  ("GetWindowLongWrapW", "GetWindowLongWrapW should not be used. Consider using GetWindowLong, or GetWindowLongPtr if a handle is being retrieved."),
  ("GetWindowsDirectoryWrapW", "GetWindowsDirectoryWrapW should not be used. Consider using GetWindowsDirectory instead."),
  ("GetWindowTextLengthWrapW", "GetWindowTextLengthWrapW should not be used. Consider using GetWindowTextLength instead."),
  ("GetWindowTextWrapW", "GetWindowTextWrapW should not be used. Consider using GetWindowText instead."),
  ("GUIDFromString", "GUIDFromString has been deprecated as of Windows Vista. Consider using CLSIDFromString or IIDFromString instead."),
  ("ILLoadFromStream", "ILLoadFromStream is deprecated as of Windows Vista."),
  ("InsertMenuItemWrapW", "InsertMenuItemWrapW should not be used. Consider using InsertMenuItem instead."),
  ("IsCharAlphaWrapW", "IsCharAlphaWrapW should not be used. Consider using IsCharAlpha instead."),
  ("IsCharAlphaNumericWrapW", "IsCharAlphaNumericWrapW should not be used. Consider using IsCharAlphaNumeric instead."),
  ("IsCharUpperWrapW", "IsCharUpperWrapW should not be used. Consider using IsCharUpper instead."),
  ("IsNetDrive", "IsNetDrive is deprecated as of Windows Vista. Consider using GetDriveType in the Volume Management API, or WNetGetConnection in the Networking API instead."),
  ("IsUserAnAdmin", "IsUserAnAdmin is deprecated as of Windows Vista."),
  ("LinkWindow_RegisterClass", "LinkWindow_Register class is deprecated as of Windows Vista. Consider using InitCommonControlsEx instead."),
  ("LinkWindow_UnregisterClass", "LinkWindow_Register class is deprecated as of Windows Vista."),
  ("LoadLibraryWrapW", "LoadLibraryWrapW should not be used. Consider using LoadLibrary or LoadLibraryEx instead."),
  ("LoadStringWrapW", "LoadStringWrapW should not be used. Consider using LoadString instead."),
  ("MessageBoxWrapW", "MessageBoxWrapW should not be used. Consider using MessageBox instead."),
  ("MoveFileWrapW", "MoveFileWrapW should not be used. Consider using MoveFile, MoveFileEx, MoveFileWithProgress, or MoveFileTransacted instead."),
  ("MLFreeLibrary", "MLFreeLibrary is removed as of Windows 7."),
  ("MLHtmlHelp", "MLHtmlHelp is deprecated as of Windows Vista."),
  ("MLLoadLibrary", "MLLoadLibrary is removed as of Windows 7."),
  ("MLWinHelp", "MLWinHelp is deprecated as of Windows Vista."),
  ("OpenRegStream", "OpenRegStream is deprecated as of Windows Vista. Consider using SHOpenRegStream2 instead."),
  ("OutputDebugStringWrapW", "OutputDebugStringWrapW is deprecated as of Windows Vista. Consider using OutputDebugStringW instead."),
  ("PassportWizardRunDll", "PassportWizardRunDll is deprecated as of Windows Vista."),
  ("PathCleanupSpec", "PathCleanupSpec is deprecated as of Windows Vista."),
  ("PathGetShortPath", "PathGetShortPath is deprecated as of Windows Vista."),
  ("PathIsExe", "PathIsExe is deprecated as of Windows Vista."),
  ("PathIsSlow", "PathIsSlow is deprecated as of Windows Vista."),
  ("PathProcessCommand", "PathProcessCommand is deprecated as of Windows Vista."),
  ("PathResolve", "PathResolve is deprecated as of Windows Vista."),
  ("PeekMessageWrapW", "PeekMessageWrapW should not be used. Consider using PeekMessage instead."),
  ("PerUserInit", "PerUserInit is deprecated as of Windows Vista."),
  ("PickIconDlg", "PickIconDlg is deprecated as of Windows Vista."),
  ("PostMessageWrapW", "PostMessageWrapW should not be used. Consider PostMessage or PostThreadMessage instead."),
  ("ReadCabinetState", "ReadCabinetState is deprecated as of Windows Vista."),
  ("RealDriveType", "RealDriveType is deprecated as of Windows Vista. Consider using GetDriveType in the Volume Management API instead."),
  ("RegCreateKeyExWrapW", "RegCreateKeyExWrapW should not be used. Consider using RegCreateKeyEx or RegCreateKeyTransacted instead."),
  ("RegisterClass", "RegisterClass has been superseded by RegisterClassEx. Consider using it instead."),
  ("RegisterClassWrapW", "RegisterClassWrapW should not be used. Consider using RegisterClassEx instead."),
  ("RegOpenKeyExWrapW", "RegOpenKeyExWrapW should not be used. Consider using RegOpenKeyEx or RegOpenKeyTransacted instead."),
  ("RegQueryValue", "RegQueryValue has been superseded by RegQueryValueEx. Consider using it instead."),
  ("RegQueryValueExWrapW", "RegQueryValueExWrapW should not be used. Consider using RegQueryValueEx instead."),
  ("RegSetValueExWrapW", "RegSetValueExWrapW should not be used. Consider using RegSetValueEx instead."),
  ("RestartDialog", "RestartDialog is deprecated in Windows Vista. Consider using ExitWindowsEx instead."),
  ("RestartDialogEx", "RestartDialogEx is deprecated in Windows Vista. Consider using ExitWindowsEx instead."),
  ("SendMessageWrapW", "SendMessageWrapW should not be used. Consider using SendMessage instead."),
  ("SetClassLong", "GetClassLong has been superseded by GetClassLongPtr. Consider using it instead to have 32-bit and 64-bit compatible code."),
  ("SetClassWord", "SetClassWord is a compatibility function for 16-bit versions of Windows. Strongly consider using SetClassLongPtr instead."),
  ("SetDlgItemTextWrapW", "SetDlgItemTextWrapW should not be used. Consider using SetDlgItemText instead."),
  ("SetWindowLong", "SetWindowLong has been superseded by SetWindowLongPtr. Consider using it instead to have 32-bit and 64-bit compatible code."),
  ("SetWindowLongWrapW", "SetWindowLongWrapW should not be used. Consider using SetWindowLong, or SetWindowLongPtr if a handle is being set instead."),
  ("SetWindowTextWrapW", "SetWindowTextWrapW should not be used. Consider using SetWindowText instead."),
  ("ShellExecuteExWrapW", "ShellExecuteExWrapW should not be used. Consider using ShellExecuteEx instead."),
  ("ShellMessageBoxWrapW", "ShellMessageBoxWrapW should not be used. Consider using ShellMessageBox instead."),
  ("SHAddFromPropSheetExtArray", "SHAddFromPropSheetExtArray is deprecated as of Windows Vista."),
  ("SHAlloc", "SHAlloc is deprecated as of Windows Vista. Consider using CoTaskMemAllocInstead,"),
  ("SHAllocShared", "SHAllocShared is deprecated as of Windows Vista."),
  ("SHAnsiToAnsi", "SHAnsiToAnsi is deprecated as of Windows Vista."),
  ("SHAnsiToUnicode", "SHAnsiToUnicode is deprecated as of Windows Vista."),
  ("SHCloneSpecialIDList", "SHCloneSpecialIDList is deprecated as of Windows Vista. Consider using SHGetSpecialFolderLocation instead."),
  ("SHCLSIDFromString", "SHCLSIDFromString is deprecated as of Windows Vista. Consider using CLSIDFromString instead."),
  ("SHCoCreateInstance", "SHCoCreateInstance is deprecated as of Windows Vista. Consider using CoCreateInstanceInstead."),
  ("SHCreateDirectory", "SHCreateDirectory is deprecated as of Windows Vista."),
  ("SHCreateDirectoryEx", "SHCreateDirectoryEx is deprecated as of Windows Vista."),
  ("SHCreateFileExtractIcon", "SHCreateFileExtractIcon is deprecated as of Windows Vista."),
  ("SHCreateProcessAsUserW", "SHCreateProcessAsUserW is removed as of Windows Vista."),
  ("SHCreatePropSheetExtArray", "SHCreatePropSheetExtArray is deprecated as of Windows Vista."),
  ("SHCreateQueryCancelAutoPlayMoniker", "SHCreateQueryCancelAutoPlayMoniker is deprecated as of Windows Vista. Consider using CreateClassMoniker instead."),
  ("SHCreateStdEnumFmtEtc", "SHCreateStdEnumFmtEtc is deprecated as of Windows Vista."),
  ("SHCreateStreamOnFile", "SHCreateStreamOnFile is deprecated as of Windows Vista. Consider using SHCreateStreamOnFileEx."),
  ("SHDestroyPropSheetExtArray", "SHDestroyPropSheetExtArray is deprecated as of Windows Vista."),
  ("Shell_GetCachedImageIndex", "Shell_GetCachedImageIndex is deprecated as of Windows Vista. Consider using Shell_GetCachedImageIndexA or Shell_GetCachedImageIndexW instead."),
  ("Shell_GetImageLists", "Shell_GetImageLists is deprecated as of Windows Vista."),
  ("Shell_MergeMenus", "Shell_MergeMenus is deprecated as of Windows Vista."),
  ("ShellMessageBox", "ShellMessageBox is deprecated as of Windows Vista."),
  ("SHExtractIconsW", "SHExtractIconsW is deprecated as of Windows Vista."),
  ("SHFind_InitMenuPopup", "SHFind_InitMenuPopup is deprecated as of Windows Vista."),
  ("SHFindFiles", "SHFindFiles is deprecated as of Windows Vista."),
  ("SHFlushClipboard", "SHFlushClipboard is removed in Windows Vista. Consider using OleFlushClipboard instead."),
  ("SHFlushSFCache", "SHFlushSFCache is deprecated as of Windows Vista."),
  ("SHFormatDateTime", "SHFormatDateTime is deprecated as of Windows Vista."),
  ("SHFormatDrive", "SHFormatDrive is deprecated as of Windows Vista."),
  ("SHFree", "SHFree is deprecated as of Windows Vista. Consider using CoTaskMemFree instead."),
  ("SHFreeShared", "SHFreeShared is deprecated as of Windows Vista."),
  ("SHGetAttributesFromDataObject", "SHGetAttributesFromDataObject is deprecated as of Windows Vista."),
  ("SHGetFileInfoWrapW", "SHGetFileInfoWrapW should not be used. Consider using SHGetFileInfo instead."),
  ("SHGetFolderLocation", "SHGetFolderLoacation is deprecated as of Windows Vista. Consider using SHGetKnownFolderIDList instead."),
  ("SHGetFolderPath", "SHGetFolderPath is deprecated as of Windows Vista. Consider using SHGetKnownFolderPath instead."),
  ("SHGetFolderPathAndSubDir", "SHGetFolderPathAndSubDir is deprecated as of Windows Vista."),
  ("SHGetInverseCMAP", "SHGetInverseCMAP is deprecated as of Windows Vista."),
  ("SHGetMalloc", "SHGetMalloc is deprecated as of Windows Vista. Consider using CoTaskMemAlloc instead."),
  ("SHGetPathFromIDListWrapW", "SHGetPathFromIDListWrapW should not be used. Consider using SHGetPathFromIDList instead."),
  ("SHGetRealIDL", "SHGetRealIDL is deprecated as of Windows Vista."),
  ("SHGetSetFolderCustomSettings", "SHGetSetFolderCustomSettings is deprecated as of Windows Vista."),
  ("SHGetSetSettings", "SHGetSetSettings is deprecated as of Windows Vista."),
  ("SHGetShellStyleHInstance", "SHGetShellStyleHInstance is removed in Windows Vista and later."),
  ("SHGetSpecialFolderLocation", "SHGetSpecialFolderLocation is deprecated as of Windows 2000. Consider using SHGetKnownFolderIDList instead."),
  ("SHGetSpecialFolderPath", "SHGetSpecialFolderPath is deprecated as of Windows 2000. Consider using SHGetKnownFolderPath instead."),
  ("SHGetViewStatePropertyBag", "SHGetViewStatePropertyBag is deprecated as of Windows Vista."),
  ("SHHandleUpdateImage", "SHHandleUpdateImage is deprecated as of Windows Vista."),
  ("SHILCreateFromPath", "SHILCreateFromPath is deprecated as of Windows Vista. Consider using SHParseDisplayName instead."),
  ("SHInvokePrinterCommand", "SHInvokePrinterCommand is deprecated as of Windows Vista. It is recommended to invoke verbs on printers via IContextMenu or ShellExecute."),
  ("SHIsChildOrSelf", "SHIsChildOrSelf is deprecated as of Windows Vista."),
  ("SHLimitInputEdit", "SHLimitInputEdit is deprecated as of Windows Vista."),
  ("SHLoadOLE", "SHLoadOLE is deprecated as of Windows Vista."),
  ("SHLockShared", "SHLockShared is deprecated as of Windows Vista."),
  ("SHMapIDListToImageListIndexAsync", "SHMapIDListToImageListIndexAsync is removed in Windows Vista."),
  ("SHMapPIDLToSystemImageListIndex", "SHMapPIDLToSystemImageListIndex is deprecated as of Windows Vista."),
  ("SHMessageBoxCheck", "SHMessageBoxCheck is deprecated as of Windows Vista."),
  ("SHObjectProperties", "SHObjectProperties is deprecated as of Windows Vista."),
  ("SHOpenPropSheet", "SHOpenPropSheet is deprecated as of Windows Vista."),
  ("SHOpenRegStream", "SHOpenRegStream has been superseded by SHOpenRegStream2. Consider using it instead."),
  ("SHRegGetBoolValueFromHKCUHKLM", "SHRegGetBoolValueFromHKCUHKLM is deprecated as of Windows Vista."),
  ("SHRegGetValue", "SHRegGetValue is deprecated as of Windows Vista. Consider using RegGetValue instead."),
  ("SHRegGetValueFromHKCUHKLM", "SHRegGetValueFromHKCUHKLM is deprecated as of Windows Vista."),
  ("SHReplaceFromPropSheetExtArray", "SHReplaceFromPropSheetExtArray is deprecated as of Windows Vista."),
  ("SHRestricted", "SHRestricted is deprecated as of Windows Vista."),
  ("SHSetFolderPath", "SHSetFolderPath is deprecated as of Windows Vista. Consider using SHSetKnownFolderPath instead."),
  ("SHSendMessageBroadcast", "SHSendMessageBroadcast is deprecated as of Windows Vista. Consider using SendMessage with the hWnd parameter as HWND_BROADCAST instead."),
  ("SHShellFolderView_Message", "SHShellFolderView_Message is deprecated as of Windows Vista."),
  ("SHSimpleIDListFromPath", "SHSimpleIDListFromPath is deprecated as of Windows 8. Consider the following alternatives: \n\t1. Call SHGetDesktopFolder to obtain IShellFolder for the desktop folder.\n\t2. Get the IShellFolder\x27s bind context (IBindCtx).\n\t3. Call IShellFolder::ParseDisplayName with the IBindCtx and the path."),
  ("SHStartNetConnectionDialog", "SHStartNetConnectionDialog is deprecated as of Windows Vista."),
  ("SHStripMneumonic", "SHStripMneumonic is deprecated as of Windows Vista."),
  ("SHUnicodeToAnsi", "SHUnicodeToAnsi is deprecated as of Windows Vista."),
  ("SHUnicodeToUnicode", "SHUnicodeToUnicode is deprecated as of Windows Vista."),
  ("SHUnlockShared", "SHUnlockShared is deprecated as of Windows Vista."),
  ("SHValidateUNC", "SHValidateUNC is deprecated as of Windows 7."),
  ("SignalFileOpen", "SignalFileOpen is deprecated as of Windows Vista."),
  ("StopWatchFlush", "StopWatchFlush is deprecated as of Windows Vista."),
  ("StopWatchMode", "StopWatchMode is deprecated as of Windows Vista."),
  ("TranslateAcceleratorWrapW", "TranslateAcceleratorWrapW should not be used. Consider using TranslateAccelerator instead."),
  ("UnregisterClassWrapW", "UnregisterClassWrapW should not be used. Consider using UnregisterClass instead."),
  ("UpdateAllDesktopSubscriptions", "UpdateAllDesktopSubscriptions is deprecated"),
  ("UrlFixupW", "UrlFixupW is deprecated as of Windows 8"),
  ("WhichPlatform", "WhichPlatform is deprecated as of Windows Vista"),
  ("Win32DeleteFile", "Win32DeleteFile is deprecated as of Windows Vista"),
  ("WOWShellExecute", "WOWShellExecute is deprecated as of Windows Vista. Consider using ShellExecute instead."),
  ("WriteCabinetState", "WriteCabinetState is deprecated as of Windows Vista.")
]

/-- The format string `"%s: line %d - %s"` used by `tokenize_file` in
`Source/deprecation-check.py` for one report. -/
def fmt_line (filepath : String) (n : Nat) (msg : String) : String :=
  filepath ++ ": line " ++ toString n ++ " - " ++ msg

/-- One of the four `if ... in ...Dict: print(...)` blocks of
`tokenize_file`: if the token text is a key of the dictionary, the formatted
advisory line for its message, otherwise nothing.  Python dictionary
membership and indexing are rendered as `find?` over the association list
(the keys of each dictionary literal are distinct, so this is exact). -/
def dict_report (filepath : String) (d : List (String × String)) (t : Token) :
    List String :=
  match d.find? (fun kv => decide (kv.fst.data = t.string)) with
  | some kv => [fmt_line filepath t.linenumber kv.snd]
  | none => []

/-- `tokenize_file(filepath, cautionary, posix, windows)` of
`Source/deprecation-check.py`, with the scanned file's contents passed
explicitly: constructs a `Tokenizer` and, for each token in order, prints the
deprecated-dictionary report unconditionally and the cautionary, POSIX and
Windows reports when the corresponding flag is set.  The result is the list
of printed lines in order. -/
def tokenize_file (filepath : String) (contents : String)
    (cautionary posix windows : Bool) : List String :=
  (parse_file contents).flatMap fun t =>
    dict_report filepath deprecatedDict t
      ++ (if cautionary then dict_report filepath cautionaryDict t else [])
      ++ (if posix then dict_report filepath posixDict t else [])
      ++ (if windows then dict_report filepath windowsDict t else [])

/-- Exact key membership: the token text is equal (as a whole string) to a
key of the mapping. -/
def hasKey (d : List (String × String)) (s : List Char) : Bool :=
  d.any fun kv => decide (kv.fst.data = s)

/-- The advisory message attached to a key of a mapping. -/
def msgOf (d : List (String × String)) (s : List Char) : String :=
  match d.find? (fun kv => decide (kv.fst.data = s)) with
  | some kv => kv.snd
  | none => ""

/-- Modelled from the spec: the advisory mappings enabled by a given flag
assignment, in reporting order — the deprecated mapping always, the
cautionary, POSIX and Windows mappings exactly when their flag is set. -/
def specEnabledMaps (cautionary posix windows : Bool) :
    List (List (String × String)) :=
  [deprecatedDict]
    ++ (if cautionary then [cautionaryDict] else [])
    ++ (if posix then [posixDict] else [])
    ++ (if windows then [windowsDict] else [])

theorem splitSpaceAux_ne_nil (cs : List Char) : ∀ cur, [] ∉ splitSpaceAux cs cur := by
  induction cs with
  | nil =>
      intro cur
      by_cases h : cur.isEmpty
      · simp [splitSpaceAux, h]
      · simp [splitSpaceAux, h]
        intro hc
        exact h (by simp [List.isEmpty_iff, ← List.reverse_eq_nil_iff, hc])
  | cons c rest ih =>
      intro cur
      by_cases hc : c = ' '
      · by_cases he : cur.isEmpty
        · simp [splitSpaceAux, hc, he]
          exact fun h => (ih []) h
        · simp [splitSpaceAux, hc, he]
          constructor
          · intro hr
            exact he (by simp [List.isEmpty_iff, ← List.reverse_eq_nil_iff, hr])
          · exact fun h => (ih []) h
      · simp [splitSpaceAux, hc]
        exact fun h => (ih (c :: cur)) h

theorem sanitize_string_nonempty (ln : Nat) (s : List Char) (t : Token)
    (h : t ∈ sanitize_add_token ln s) : t.string ≠ [] := by
  simp [sanitize_add_token] at h
  obtain ⟨w, hw, ht⟩ := h
  have := splitSpaceAux_ne_nil (replacePunct (clipAngle s)) []
  intro hx
  rw [← ht] at hx
  simp at hx
  rw [hx] at hw
  exact this hw

theorem scanLoop_nil (m : Mode) (ln : Nat) (tok : List Char) :
    scanLoop m [] ln tok =
      ScanOut.mk [] [] [] [] [] [] []
        (match m with | Mode.lineC => ln + 1 | _ => ln) tok := by
  cases m <;> rfl

theorem scan_tokens_nonempty :
    ∀ (cs : List Char) (m : Mode) (ln : Nat) (tok : List Char) (t : Token),
      t ∈ (scanLoop m cs ln tok).tokens → t.string ≠ [] := by
  intro cs
  induction cs with
  | nil => intro m ln tok t ht; simp [scanLoop_nil] at ht
  | cons c rest ih =>
      intro m ln tok t ht
      cases m with
      | normal =>
          simp only [scanLoop] at ht
          split at ht
          · exact ih _ _ _ t (by simpa [ScanOut.addW] using ht)
          · split at ht
            · exact ih _ _ _ t (by simpa [ScanOut.addW] using ht)
            · split at ht
              · exact ih _ _ _ t (by simpa [ScanOut.addW] using ht)
              · split at ht
                · split at ht
                  · exact ih _ _ _ t (by simpa [ScanOut.addW] using ht)
                  · exact ih _ _ _ t (by simpa [ScanOut.addW] using ht)
                · split at ht
                  · simp only [ScanOut.addTok, ScanOut.addW, List.mem_append] at ht
                    rcases ht with h1 | h2
                    · exact sanitize_string_nonempty _ _ t h1
                    · exact ih _ _ _ t h2
                  · exact ih _ _ _ t (by simpa [ScanOut.addN] using ht)
      | comment =>
          simp only [scanLoop] at ht
          split at ht
          · exact ih _ _ _ t (by simpa [ScanOut.addC] using ht)
          · exact ih _ _ _ t (by simpa [ScanOut.addC] using ht)
      | instring =>
          simp only [scanLoop] at ht
          split at ht
          · exact ih _ _ _ t (by simpa [ScanOut.addS] using ht)
          · split at ht
            · exact ih _ _ _ t (by simpa [ScanOut.addS] using ht)
            · exact ih _ _ _ t (by simpa [ScanOut.addS] using ht)
      | strEsc =>
          simp only [scanLoop] at ht
          exact ih _ _ _ t (by simpa [ScanOut.addS] using ht)
      | lineC =>
          simp only [scanLoop] at ht
          split at ht
          · exact ih _ _ _ t (by simpa [ScanOut.addL] using ht)
          · exact ih _ _ _ t (by simpa [ScanOut.addL] using ht)
      | skipc =>
          simp only [scanLoop] at ht
          exact ih _ _ _ t (by simpa [ScanOut.addC] using ht)
      | skipq n =>
          simp only [scanLoop] at ht
          exact ih _ _ _ t (by simpa [ScanOut.addQ] using ht)


theorem consumed_addN (c : Char) (o : ScanOut) :
    (ScanOut.addN c o).consumed = c :: o.consumed := rfl

theorem consumed_addW (c : Char) (o : ScanOut) :
    (ScanOut.addW c o).consumed.Perm (c :: o.consumed) := by
  simp only [ScanOut.consumed, ScanOut.addW]
  exact List.perm_middle

theorem consumed_addL (c : Char) (o : ScanOut) :
    (ScanOut.addL c o).consumed.Perm (c :: o.consumed) := by
  simp only [ScanOut.consumed, ScanOut.addL]
  exact (List.Perm.append_left o.nchars List.perm_middle).trans List.perm_middle

theorem consumed_addC (c : Char) (o : ScanOut) :
    (ScanOut.addC c o).consumed.Perm (c :: o.consumed) := by
  simp only [ScanOut.consumed, ScanOut.addC]
  exact (List.Perm.append_left o.nchars
    ((List.Perm.append_left o.wchars List.perm_middle).trans List.perm_middle)).trans
    List.perm_middle

theorem consumed_addS (c : Char) (o : ScanOut) :
    (ScanOut.addS c o).consumed.Perm (c :: o.consumed) := by
  simp only [ScanOut.consumed, ScanOut.addS]
  exact (List.Perm.append_left o.nchars
    ((List.Perm.append_left o.wchars
      ((List.Perm.append_left o.lchars List.perm_middle).trans List.perm_middle)).trans
      List.perm_middle)).trans
    List.perm_middle

theorem consumed_addQ (c : Char) (o : ScanOut) :
    (ScanOut.addQ c o).consumed.Perm (c :: o.consumed) := by
  simp only [ScanOut.consumed, ScanOut.addQ]
  exact (List.Perm.append_left o.nchars
    ((List.Perm.append_left o.wchars
      ((List.Perm.append_left o.lchars
        ((List.Perm.append_left o.cchars List.perm_middle).trans List.perm_middle)).trans
        List.perm_middle)).trans
      List.perm_middle)).trans
    List.perm_middle

theorem consumed_addTok (ts : List Token) (o : ScanOut) :
    (ScanOut.addTok ts o).consumed = o.consumed := rfl

theorem scan_consumed_perm :
    ∀ (cs : List Char) (m : Mode) (ln : Nat) (tok : List Char),
      (scanLoop m cs ln tok).consumed.Perm cs := by
  intro cs
  induction cs with
  | nil =>
      intro m ln tok
      rw [scanLoop_nil]
      simp [ScanOut.consumed]
  | cons c0 rest ih =>
      intro m ln tok
      cases m with
      | normal =>
          simp only [scanLoop]
          split
          · exact (consumed_addW c0 _).trans ((ih _ _ _).cons c0)
          · split
            · exact (consumed_addW c0 _).trans ((ih _ _ _).cons c0)
            · split
              · exact (consumed_addW c0 _).trans ((ih _ _ _).cons c0)
              · split
                · split
                  · exact (consumed_addW c0 _).trans ((ih _ _ _).cons c0)
                  · exact (consumed_addW c0 _).trans ((ih _ _ _).cons c0)
                · split
                  · rw [consumed_addTok]
                    exact (consumed_addW c0 _).trans ((ih _ _ _).cons c0)
                  · rw [consumed_addN]
                    exact (ih _ _ _).cons c0
      | comment =>
          simp only [scanLoop]
          split
          · exact (consumed_addC c0 _).trans ((ih _ _ _).cons c0)
          · exact (consumed_addC c0 _).trans ((ih _ _ _).cons c0)
      | instring =>
          simp only [scanLoop]
          split
          · exact (consumed_addS c0 _).trans ((ih _ _ _).cons c0)
          · split
            · exact (consumed_addS c0 _).trans ((ih _ _ _).cons c0)
            · exact (consumed_addS c0 _).trans ((ih _ _ _).cons c0)
      | strEsc =>
          simp only [scanLoop]
          exact (consumed_addS c0 _).trans ((ih _ _ _).cons c0)
      | lineC =>
          simp only [scanLoop]
          split
          · exact (consumed_addL c0 _).trans ((ih _ _ _).cons c0)
          · exact (consumed_addL c0 _).trans ((ih _ _ _).cons c0)
      | skipc =>
          simp only [scanLoop]
          exact (consumed_addC c0 _).trans ((ih _ _ _).cons c0)
      | skipq n =>
          simp only [scanLoop]
          exact (consumed_addQ c0 _).trans ((ih _ _ _).cons c0)

theorem clipAngleAux_sublist :
    ∀ (cs : List Char) (pend : Option (List Char)),
      (clipAngleAux cs pend).Sublist
        ((match pend with | none => [] | some p => '<' :: p.reverse) ++ cs) := by
  intro cs
  induction cs with
  | nil =>
      intro pend
      cases pend with
      | none => simp [clipAngleAux]
      | some p => simp [clipAngleAux]
  | cons c rest ih =>
      intro pend
      cases pend with
      | none =>
          by_cases hc : c = '<'
          · subst hc
            simp only [clipAngleAux, if_pos rfl, List.nil_append]
            have h := ih (some [])
            simpa using h
          · simp only [clipAngleAux, if_neg hc, List.nil_append]
            exact (ih none).cons₂ c
      | some p =>
          by_cases hc : c = '>'
          · subst hc
            simp only [clipAngleAux, if_pos rfl]
            have h0 : (clipAngleAux rest none).Sublist rest := by simpa using ih none
            have h2 : ('>' :: rest).Sublist ('<' :: p.reverse ++ '>' :: rest) :=
              List.sublist_append_right _ _
            exact h0.trans ((List.sublist_cons_self '>' rest).trans h2)
          · simp only [clipAngleAux, if_neg hc]
            have h := ih (some (c :: p))
            simp only [List.reverse_cons, List.cons_append, List.append_assoc] at h
            simpa using h

theorem clipAngle_sublist (cs : List Char) : (clipAngle cs).Sublist cs := by
  have h := clipAngleAux_sublist cs none
  simpa [clipAngle] using h

theorem tokensChars_map_mk (ln : Nat) (L : List (List Char)) :
    tokensChars (L.map (Token.mk ln)) = L.flatMap id := by
  induction L with
  | nil => rfl
  | cons w L ih => simp [tokensChars, List.flatMap] at ih ⊢; exact ih

theorem flatMap_id_splitSpaceAux :
    ∀ (cs cur : List Char),
      (splitSpaceAux cs cur).flatMap id = cur.reverse ++ cs.filter (fun c => !(c == ' ')) := by
  intro cs
  induction cs with
  | nil =>
      intro cur
      by_cases h : cur.isEmpty
      · have : cur = [] := by simpa [List.isEmpty_iff] using h
        simp [splitSpaceAux, h, this]
      · simp [splitSpaceAux, h]
  | cons c rest ih =>
      intro cur
      by_cases hc : c = ' '
      · subst hc
        by_cases he : cur.isEmpty
        · have : cur = [] := by simpa [List.isEmpty_iff] using he
          simp [splitSpaceAux, he, this, ih []]
        · simp [splitSpaceAux, he, ih []]
      · simp [splitSpaceAux, hc, ih (c :: cur)]

theorem count_filter_replacePunct_le (c : Char) :
    ∀ (z : List Char),
      ((replacePunct z).filter (fun d => !(d == ' '))).count c ≤ z.count c := by
  intro z
  induction z with
  | nil => simp [replacePunct]
  | cons d z ih =>
      by_cases hsp : (if punctChar d then ' ' else d) = ' '
      · have h1 : (replacePunct (d :: z)).filter (fun d => !(d == ' ')) =
            (replacePunct z).filter (fun d => !(d == ' ')) := by
          simp [replacePunct, List.filter_cons, hsp]
        rw [h1, List.count_cons]
        omega
      · have hd : d ≠ ' ' := by
          intro h
          apply hsp
          subst h
          split <;> rfl
        have hpn : punctChar d = false := by
          by_contra h
          simp at h
          simp [h] at hsp
        have h1 : (replacePunct (d :: z)).filter (fun d => !(d == ' ')) =
            d :: (replacePunct z).filter (fun d => !(d == ' ')) := by
          simp [replacePunct, List.filter_cons, hpn, hd]
        rw [h1, List.count_cons, List.count_cons]
        omega

theorem sanitize_count_le (ln : Nat) (s : List Char) (c : Char) :
    (tokensChars (sanitize_add_token ln s)).count c ≤ s.count c := by
  have h1 : tokensChars (sanitize_add_token ln s) =
      (replacePunct (clipAngle s)).filter (fun d => !(d == ' ')) := by
    rw [sanitize_add_token, tokensChars_map_mk]
    have := flatMap_id_splitSpaceAux (replacePunct (clipAngle s)) []
    simpa [splitSpace] using this
  rw [h1]
  calc ((replacePunct (clipAngle s)).filter (fun d => !(d == ' '))).count c
      ≤ (clipAngle s).count c := count_filter_replacePunct_le c (clipAngle s)
    _ ≤ s.count c := (clipAngle_sublist s).count_le c

theorem tokensChars_append (a b : List Token) :
    tokensChars (a ++ b) = tokensChars a ++ tokensChars b := by
  simp [tokensChars]

theorem scan_tokensChars_count_le :
    ∀ (cs : List Char) (m : Mode) (ln : Nat) (tok : List Char) (c : Char),
      (tokensChars (scanLoop m cs ln tok).tokens).count c ≤
        tok.count c + ((scanLoop m cs ln tok).nchars).count c := by
  intro cs
  induction cs with
  | nil =>
      intro m ln tok c
      rw [scanLoop_nil]
      simp [tokensChars]
  | cons c0 rest ih =>
      intro m ln tok c
      cases m with
      | normal =>
          simp only [scanLoop]
          split
          · simpa [ScanOut.addW] using ih Mode.lineC _ tok c
          · split
            · simpa [ScanOut.addW] using ih Mode.comment _ tok c
            · split
              · simpa [ScanOut.addW] using ih Mode.instring _ tok c
              · split
                · split
                  · simpa [ScanOut.addW] using ih (Mode.skipq 2) _ tok c
                  · simpa [ScanOut.addW] using ih (Mode.skipq 1) _ tok c
                · split
                  · simp only [ScanOut.addTok, ScanOut.addW, tokensChars_append,
                      List.count_append]
                    have h1 := sanitize_count_le (if c0 = '\n' then ln + 1 else ln) tok c
                    have h2 := ih Mode.normal (if c0 = '\n' then ln + 1 else ln) [] c
                    simp only [List.count_nil] at h2
                    omega
                  · have h2 := ih Mode.normal (if c0 = '\n' then ln + 1 else ln) (tok ++ [c0]) c
                    simp only [ScanOut.addN]
                    simp only [List.count_append, List.count_cons, List.count_nil] at h2 ⊢
                    omega
      | comment =>
          simp only [scanLoop]
          split
          · simpa [ScanOut.addC] using ih Mode.skipc _ tok c
          · simpa [ScanOut.addC] using ih Mode.comment _ tok c
      | instring =>
          simp only [scanLoop]
          split
          · simpa [ScanOut.addS] using ih Mode.strEsc _ tok c
          · split
            · simpa [ScanOut.addS] using ih Mode.normal _ tok c
            · simpa [ScanOut.addS] using ih Mode.instring _ tok c
      | strEsc =>
          simp only [scanLoop]
          simpa [ScanOut.addS] using ih Mode.instring _ tok c
      | lineC =>
          simp only [scanLoop]
          split
          · simpa [ScanOut.addL] using ih Mode.normal _ tok c
          · simpa [ScanOut.addL] using ih Mode.lineC _ tok c
      | skipc =>
          simp only [scanLoop]
          simpa [ScanOut.addC] using ih Mode.normal _ tok c
      | skipq n =>
          simp only [scanLoop]
          simpa [ScanOut.addQ] using ih _ _ tok c

theorem scan_counts_sum (s : String) (c : Char) :
    s.toList.count c =
      ((scanFile s).nchars).count c + ((scanFile s).wchars).count c +
      ((scanFile s).lchars).count c + ((scanFile s).cchars).count c +
      ((scanFile s).schars).count c + ((scanFile s).qchars).count c := by
  have hp := scan_consumed_perm s.toList Mode.normal 1 []
  have h1 := hp.count_eq c
  simp only [ScanOut.consumed, List.count_append, scanFile] at h1 ⊢
  omega

theorem scan_token_chars_zero (s : String) (c : Char)
    (h : ((scanFile s).nchars).count c = 0) :
    ∀ t ∈ (scanFile s).tokens, c ∉ t.string := by
  intro t ht hc
  have h1 := scan_tokensChars_count_le s.toList Mode.normal 1 [] c
  have hmem : c ∈ tokensChars (scanFile s).tokens := by
    simp only [tokensChars, List.mem_flatMap]
    exact ⟨t, ht, hc⟩
  have h2 : 0 < (tokensChars (scanFile s).tokens).count c :=
    List.count_pos_iff.mpr hmem
  simp only [scanFile] at h2 h
  simp only [List.count_nil] at h1
  omega

theorem comment_no_closer_no_tokens :
    ∀ (cs : List Char) (ln : Nat) (tok : List Char),
      noCloserIn cs = true → (scanLoop Mode.comment cs ln tok).tokens = [] := by
  intro cs
  induction cs with
  | nil => intro ln tok _; rw [scanLoop_nil]
  | cons c rest ih =>
      intro ln tok h
      simp only [noCloserIn, Bool.and_eq_true, Bool.not_eq_true'] at h
      obtain ⟨h1, h2⟩ := h
      simp only [scanLoop]
      split
      · rename_i hcond
        exfalso
        rw [hcond.1] at h1
        have : rest.head? = some '/' := hcond.2
        rw [this] at h1
        simp at h1
      · simpa [ScanOut.addC] using ih _ tok h2

theorem comment_traverse_tokens :
    ∀ (l : List Char) (ln : Nat) (tok rest : List Char),
      noCloserIn l = true →
      (scanLoop Mode.comment (l ++ '*' :: '/' :: rest) ln tok).tokens =
        (scanLoop Mode.normal rest (ln + l.count '\n') tok).tokens := by
  intro l
  induction l with
  | nil =>
      intro ln tok rest _
      simp [scanLoop, ScanOut.addC]
  | cons c l ih =>
      intro ln tok rest h
      simp only [noCloserIn, Bool.and_eq_true, Bool.not_eq_true'] at h
      obtain ⟨h1, h2⟩ := h
      simp only [List.cons_append, scanLoop, List.append_eq]
      have hfalse : ¬(c = '*' ∧ (l ++ '*' :: '/' :: rest).head? = some '/') := by
        rintro ⟨hc, hh⟩
        cases l with
        | nil => simp at hh
        | cons d l' =>
            simp at hh
            rw [hc] at h1
            simp [hh] at h1
      rw [if_neg hfalse]
      have := ih (if c = '\n' then ln + 1 else ln) tok rest h2
      simp only [ScanOut.addC]
      rw [this]
      have harith : (if c = '\n' then ln + 1 else ln) + l.count '\n' =
          ln + (c :: l).count '\n' := by
        rw [List.count_cons]
        by_cases hc : c = '\n'
        · simp [hc]; omega
        · simp [hc]
      rw [harith]

theorem okC6_tail {l : List Char} (h : okC6 l = true) : okC6 l.tail = true := by
  cases l with
  | nil => simp [okC6]
  | cons c rest =>
      simp only [okC6, Bool.and_eq_true] at h
      exact h.2

theorem count_cons_ln (c : Char) (rest : List Char) (ln : Nat) :
    (if c = '\n' then ln + 1 else ln) + rest.count '\n' =
      ln + (c :: rest).count '\n' := by
  rw [List.count_cons]
  by_cases hc : c = '\n'
  · simp [hc]; omega
  · simp [hc]

theorem scan_lnEnd_count :
    ∀ (cs : List Char) (ln : Nat) (tok : List Char),
      (okC6 cs = true →
        (scanLoop Mode.normal cs ln tok).lnEnd = ln + cs.count '\n') ∧
      (okC6 cs = true →
        (scanLoop Mode.comment cs ln tok).lnEnd = ln + cs.count '\n') ∧
      (okC6 cs.tail = true →
        (scanLoop Mode.skipc cs ln tok).lnEnd = ln + cs.tail.count '\n') := by
  intro cs
  induction cs with
  | nil =>
      intro ln tok
      refine ⟨fun _ => ?_, fun _ => ?_, fun _ => ?_⟩ <;> rw [scanLoop_nil] <;> simp
  | cons c rest ih =>
      intro ln tok
      have hstep : ∀ (c : Char), c ≠ '\n' → (if c = '\n' then ln + 1 else ln) = ln := by
        intro c hc; simp [hc]
      refine ⟨fun h => ?_, fun h => ?_, fun h => ?_⟩
      · simp only [okC6, Bool.and_eq_true, Bool.not_eq_true'] at h
        obtain ⟨⟨⟨hq, hq2⟩, hsl⟩, hrest⟩ := h
        simp only [scanLoop]
        split
        · rename_i hcond
          exfalso
          rw [hcond.1, hcond.2] at hsl
          simp at hsl
        · split
          · simp only [ScanOut.addW]
            rw [(ih _ tok).2.1 hrest]
            exact count_cons_ln c rest ln
          · split
            · rename_i hc
              exfalso
              rw [hc] at hq
              simp at hq
            · split
              · rename_i hc
                exfalso
                rw [hc] at hq2
                simp at hq2
              · split
                · simp only [ScanOut.addTok, ScanOut.addW]
                  rw [(ih _ ([] : List Char)).1 hrest]
                  exact count_cons_ln c rest ln
                · simp only [ScanOut.addN]
                  rw [(ih _ (tok ++ [c])).1 hrest]
                  exact count_cons_ln c rest ln
      · simp only [okC6, Bool.and_eq_true, Bool.not_eq_true'] at h
        obtain ⟨⟨⟨hq, hq2⟩, hsl⟩, hrest⟩ := h
        simp only [scanLoop]
        split
        · rename_i hcond
          obtain ⟨hc, hh⟩ := hcond
          simp only [ScanOut.addC]
          rw [(ih _ tok).2.2 (okC6_tail hrest)]
          subst hc
          cases rest with
          | nil => simp at hh
          | cons d r =>
              simp only [List.head?_cons, Option.some.injEq] at hh
              subst hh
              simp [List.count_cons]
        · simp only [ScanOut.addC]
          rw [(ih _ tok).2.1 hrest]
          exact count_cons_ln c rest ln
      · simp only [List.tail_cons] at h
        simp only [scanLoop, ScanOut.addC, List.tail_cons]
        exact (ih _ tok).1 h

theorem specSplitTokens_eq (cs : List Char) (ln : Nat) :
    specSplitTokens cs ln =
      match cs.dropWhile (fun c => !pyIsSpace c) with
      | [] => []
      | w :: rest =>
          sanitize_add_token (if w = '\n' then ln + 1 else ln)
            (cs.takeWhile (fun c => !pyIsSpace c)) ++
          specSplitTokens rest (if w = '\n' then ln + 1 else ln) := by
  rw [specSplitTokens]
  rcases hd : cs.dropWhile (fun c => !pyIsSpace c) with _ | ⟨w, rest⟩ <;> simp [hd]

theorem strIsSpace_of_nonspace {tok : List Char}
    (h : ∀ x ∈ tok, pyIsSpace x = false) : strIsSpace tok = false := by
  cases tok with
  | nil => rfl
  | cons c rest =>
      have := h c (by simp)
      simp [strIsSpace, List.all_cons, this]

theorem normal_tokens_spec :
    ∀ (cs : List Char) (ln : Nat) (tok : List Char),
      okC3 cs = true →
      (∀ x ∈ tok, pyIsSpace x = false) →
      (scanLoop Mode.normal cs ln tok).tokens = specSplitTokens (tok ++ cs) ln := by
  intro cs
  induction cs with
  | nil =>
      intro ln tok _ htok
      rw [scanLoop_nil, List.append_nil, specSplitTokens_eq]
      have hd : tok.dropWhile (fun c => !pyIsSpace c) = [] :=
        List.dropWhile_eq_nil_iff.mpr (by intro x hx; simp [htok x hx])
      rw [hd]
  | cons c rest ih =>
      intro ln tok h htok
      simp only [okC3, Bool.and_eq_true, Bool.not_eq_true'] at h
      obtain ⟨⟨⟨hq, hq2⟩, hsl⟩, hrest⟩ := h
      have hq' : c ≠ '"' := by intro hc; rw [hc] at hq; simp at hq
      have hq2' : c ≠ '\'' := by intro hc; rw [hc] at hq2; simp at hq2
      have hsl1 : ¬(c = '/' ∧ rest.head? = some '/') := by
        rintro ⟨hc, hh⟩
        rw [hc, hh] at hsl
        simp at hsl
      have hsl2 : ¬(c = '/' ∧ rest.head? = some '*') := by
        rintro ⟨hc, hh⟩
        rw [hc, hh] at hsl
        simp at hsl
      by_cases hsp : pyIsSpace c = true
      · have hln : c ≠ '/' := by
          intro hc; rw [hc] at hsp; exact absurd hsp (by decide)
        simp only [scanLoop]
        rw [if_neg (fun hx => hln hx.1), if_neg (fun hx => hln hx.1),
          if_neg hq', if_neg hq2',
          if_pos ⟨hsp, strIsSpace_of_nonspace htok⟩]
        simp only [ScanOut.addTok, ScanOut.addW]
        rw [ih _ [] hrest (by intro x hx; simp at hx)]
        rw [List.nil_append]
        have hrhs : specSplitTokens (tok ++ c :: rest) ln =
            sanitize_add_token (if c = '\n' then ln + 1 else ln) tok ++
              specSplitTokens rest (if c = '\n' then ln + 1 else ln) := by
          rw [specSplitTokens_eq]
          have hpos : ∀ x ∈ tok, (fun c => !pyIsSpace c) x = true := by
            intro x hx; simp [htok x hx]
          have hdw : (tok ++ c :: rest).dropWhile (fun c => !pyIsSpace c) = c :: rest := by
            rw [List.dropWhile_append_of_pos hpos]
            simp [List.dropWhile, hsp]
          have htw : (tok ++ c :: rest).takeWhile (fun c => !pyIsSpace c) = tok := by
            rw [List.takeWhile_append_of_pos hpos]
            simp [List.takeWhile, hsp]
          rw [hdw]
          simp only [htw]
        rw [hrhs]
      · have hln : c ≠ '\n' := by
          intro hc; rw [hc] at hsp; exact absurd (by decide : pyIsSpace '\n' = true) hsp
        simp only [scanLoop]
        rw [if_neg hsl1, if_neg hsl2, if_neg hq', if_neg hq2',
          if_neg (fun hx => hsp hx.1)]
        simp only [ScanOut.addN]
        rw [ih _ (tok ++ [c]) hrest ?_]
        · rw [if_neg hln, List.append_assoc, List.singleton_append]
        · intro x hx
          simp only [List.mem_append, List.mem_singleton] at hx
          rcases hx with hx | hx
          · exact htok x hx
          · rw [hx]
            simpa using hsp

theorem dict_report_spec (filepath : String) (d : List (String × String)) (t : Token) :
    dict_report filepath d t =
      if hasKey d t.string then [fmt_line filepath t.linenumber (msgOf d t.string)]
      else [] := by
  induction d with
  | nil => simp [dict_report, hasKey, msgOf]
  | cons kv d ih =>
      by_cases hk : kv.fst.data = t.string
      · simp [dict_report, hasKey, msgOf, List.find?_cons, hk]
      · have e1 : dict_report filepath (kv :: d) t = dict_report filepath d t := by
          simp only [dict_report]
          rw [List.find?_cons_of_neg]
          simp [hk]
        have e2 : hasKey (kv :: d) t.string = hasKey d t.string := by
          simp [hasKey, hk]
        have e3 : msgOf (kv :: d) t.string = msgOf d t.string := by
          simp only [msgOf]
          rw [List.find?_cons_of_neg]
          simp [hk]
        rw [e1, e2, e3, ih]

theorem flatMap_sublist {α β : Type} (l : List α) (f g : α → List β)
    (h : ∀ x, (f x).Sublist (g x)) : (l.flatMap f).Sublist (l.flatMap g) := by
  induction l with
  | nil => simp
  | cons x l ih =>
      simp only [List.flatMap_cons]
      exact (h x).append ih

/-- C1, counterexample: the input `a /* /* x` contains a `/*` inside an
already-open block comment and reaches end of file with the comment still
open; the claim says the scan must fail with a `ParseError` in both
situations, but the scan succeeds, returning the token read before the
comment. -/
theorem claim1_cex :
    tokenizeFileE "a /* /* x" = Except.ok [Token.mk 1 ['a']] := by
  show Except.ok (parse_file "a /* /* x") = _
  rw [show parse_file "a /* /* x" = [Token.mk 1 ['a']] from by decide]

/-- C1 (amended): the scanner never fails: scanning any input returns
normally (there is no `raise` in `Tokenizer._parse_file`), a nested `/*` is
consumed as ordinary comment content, and when no `*/` follows, the comment
silently extends to end of file and contributes no token. -/
theorem claim1_never_parse_error :
    (∀ s : String, tokenizeFileE s = Except.ok (parse_file s)) ∧
    (∀ (cs : List Char) (ln : Nat) (tok : List Char),
      noCloserIn cs = true → (scanLoop Mode.comment cs ln tok).tokens = []) :=
  ⟨fun _ => rfl, comment_no_closer_no_tokens⟩

/-- C1, witness for the amended theorem at a concrete comment body. -/
theorem claim1_witness :
    noCloserIn ['a', '/', '*', 'b'] = true ∧
    (scanLoop Mode.comment ['a', '/', '*', 'b'] 3 ['q']).tokens = [] :=
  ⟨by decide, claim1_never_parse_error.2 ['a', '/', '*', 'b'] 3 ['q'] (by decide)⟩

/-- C2 (code bug): reaching end of file with the non-empty buffer `gets`
emits nothing — the Python loop ends without a final flush, discarding the
buffered run — although a whitespace-terminated copy of the same run is
emitted. -/
theorem claim2_eof_buffer_dropped :
    parse_file "gets" = [] ∧
    (scanFile "gets").bufEnd = ['g', 'e', 't', 's'] ∧
    parse_file "gets\n" = [Token.mk 2 ['g', 'e', 't', 's']] := by decide

/-- C3, counterexample: on `a b\nc` (no comment or literal constructs) the
claim predicts tokens `a`,`b` on line 1 and `c` on line 2; the code instead
reports `b` on line 2 (the terminating newline increments the counter before
emission) and discards `c` (end of file does not flush). -/
theorem claim3_cex :
    parse_file "a b\nc" = [Token.mk 1 ['a'], Token.mk 2 ['b']] ∧
    parse_file "a b\nc" ≠
      [Token.mk 1 ['a'], Token.mk 1 ['b'], Token.mk 2 ['c']] := by decide

/-- C3 (amended): for inputs free of `"`, `'` and of `/` followed by `/` or
`*`, the emitted tokens equal the whitespace-split sequence of the input
after sanitization, except that each token carries the line counter as it
stands after the terminating whitespace character (so newline-terminated
tokens are attributed to the following line) and a final run terminated by
end of file is discarded. -/
theorem claim3_whitespace_split (s : String) (h : okC3 s.toList = true) :
    parse_file s = specSplitTokens s.toList 1 := by
  have := normal_tokens_spec s.toList 1 [] h (by intro x hx; simp at hx)
  simpa [parse_file, scanFile] using this

/-- C3, witness at a concrete restricted input. -/
theorem claim3_witness :
    okC3 "int x;\ny z".toList = true ∧
    parse_file "int x;\ny z" = specSplitTokens "int x;\ny z".toList 1 :=
  ⟨by decide, claim3_whitespace_split "int x;\ny z" (by decide)⟩

/-- C4, counterexample: in `/*/ x */ ` the whole span up to the final `*/`
is a single block comment under C/C++ rules (the opener's `*` cannot close),
as `cMark` records: every occurrence of `x` is inside the span.  The scanner
nevertheless emits the token `x`, because it lets the opener's `*` pair with
the following `/`, closing the comment at `/*/`. -/
theorem claim4_cex :
    parse_file "/*/ x */ " = [Token.mk 1 ['x']] ∧
    (List.zip "/*/ x */ ".toList (cMark false "/*/ x */ ".toList)).all
      (fun p => !(p.1 == 'x') || p.2) = true ∧
    'x' ∈ ['x'] := by decide

/-- C4 (amended): a character every occurrence of which is consumed while
the scanner is inside a block comment (under the scanner's own closing rule,
where the `*` of the opener may pair with a later `/`) never appears in any
emitted token. -/
theorem claim4_comment_chars_excluded (s : String) (c : Char)
    (h : ((scanFile s).cchars).count c = s.toList.count c) :
    ∀ t ∈ (scanFile s).tokens, c ∉ t.string := by
  have hsum := scan_counts_sum s c
  have hz : ((scanFile s).nchars).count c = 0 := by
    simp only [scanFile] at hsum h ⊢
    omega
  exact scan_token_chars_zero s c hz

/-- C4, witness at a concrete input whose `q` occurs only inside the block
comment. -/
theorem claim4_witness :
    ((scanFile "/* q */ x ").cchars).count 'q' = "/* q */ x ".toList.count 'q' ∧
    Token.mk 1 ['x'] ∈ (scanFile "/* q */ x ").tokens ∧
    'q' ∉ (Token.mk 1 ['x']).string :=
  ⟨by decide, by decide,
    claim4_comment_chars_excluded "/* q */ x " 'q' (by decide)
      (Token.mk 1 ['x']) (by decide)⟩

/-- C5, counterexample: in `'\x41' y ` the characters `\x41` lie inside the
character literal (the escape consumes the `x`, and the literal closes at
the second quote), as `litMark` records: every occurrence of `1` is inside a
literal.  The scanner still emits the token `1`, because after a `'` whose
peek is a backslash it blindly skips exactly three characters, leaving the
tail of longer escapes in normal code. -/
theorem claim5_cex :
    parse_file "'\\x41' y " = [Token.mk 1 ['1']] ∧
    (List.zip "'\\x41' y ".toList (litMark 0 "'\\x41' y ".toList)).all
      (fun p => !(p.1 == '1') || p.2) = true ∧
    '1' ∈ ['1'] := by decide

/-- C5 (amended): a character every occurrence of which is consumed while
the scanner is inside a string literal, or is among the two or three
characters blindly skipped after an opening `'`, never appears in any
emitted token.  (Contents of character literals longer than the fixed skip
can leak, as the counterexample shows.) -/
theorem claim5_literal_chars_excluded (s : String) (c : Char)
    (h : ((scanFile s).schars).count c + ((scanFile s).qchars).count c =
      s.toList.count c) :
    ∀ t ∈ (scanFile s).tokens, c ∉ t.string := by
  have hsum := scan_counts_sum s c
  have hz : ((scanFile s).nchars).count c = 0 := by
    simp only [scanFile] at hsum h ⊢
    omega
  exact scan_token_chars_zero s c hz

/-- C5, witness at a concrete input whose `a` occurs only inside the string
literal. -/
theorem claim5_witness :
    ((scanFile "\"ab\" x ").schars).count 'a' +
      ((scanFile "\"ab\" x ").qchars).count 'a' = "\"ab\" x ".toList.count 'a' ∧
    Token.mk 1 ['x'] ∈ (scanFile "\"ab\" x ").tokens ∧
    'a' ∉ (Token.mk 1 ['x']).string :=
  ⟨by decide, by decide,
    claim5_literal_chars_excluded "\"ab\" x " 'a' (by decide)
      (Token.mk 1 ['x']) (by decide)⟩

/-- C6, counterexample: in the input `'\⏎' x⏎y ` (where ⏎ is a newline) the
first newline is one of the three characters blindly consumed by
`sourcefile.read(3)` after the `'`, bypassing the top-of-loop counter
update.  Two newlines are consumed but the final counter is 2, not 1+2, and
the token `y` is reported at line 2 instead of line 3. -/
theorem claim6_cex :
    (scanFile "'\\\n' x\ny ").lnEnd = 2 ∧
    "'\\\n' x\ny ".toList.count '\n' = 2 ∧
    (scanFile "'\\\n' x\ny ").tokens = [Token.mk 2 ['x'], Token.mk 2 ['y']] ∧
    (scanFile "'\\\n' x\ny ").lnEnd ≠ 1 + "'\\\n' x\ny ".toList.count '\n' := by
  decide

/-- C6 (amended): for inputs containing no `'`, no `"` and no `//`, every
consumed newline — in normal code and inside block comments alike —
increments the counter exactly once, so the final counter is one more than
the number of newlines; newlines among blindly skipped characters (after a
`'` or after a backslash inside a string) are not counted.  The claim's
block-comment scenario does hold: `int` after the three-line comment is
reported at line 4. -/
theorem claim6_newline_count :
    (∀ s : String, okC6 s.toList = true →
      (scanFile s).lnEnd = 1 + s.toList.count '\n') ∧
    (scanFile "/* line1\nline2\nauto_ptr */\nint x;\n").tokens =
      [Token.mk 4 ['i', 'n', 't'], Token.mk 5 ['x']] := by
  constructor
  · intro s h
    have := (scan_lnEnd_count s.toList 1 []).1 h
    simpa [scanFile, Nat.add_comm] using this
  · decide

/-- C6, witness for the universally quantified part at a concrete input with
a multi-line block comment. -/
theorem claim6_witness :
    okC6 "/*a\nb*/c\nd ".toList = true ∧
    (scanFile "/*a\nb*/c\nd ").lnEnd = 1 + "/*a\nb*/c\nd ".toList.count '\n' :=
  ⟨by decide, claim6_newline_count.1 "/*a\nb*/c\nd " (by decide)⟩

/-- C7, counterexample: in `foo/*c*/bar ` the transition into the block
comment does not flush the buffer `foo`; after the comment the scanner keeps
appending to the same buffer and emits the single joined token `foobar`,
which the claim says must not happen. -/
theorem claim7_cex :
    parse_file "foo/*c*/bar " = [Token.mk 1 ['f', 'o', 'o', 'b', 'a', 'r']] ∧
    ∃ t ∈ parse_file "foo/*c*/bar ", t.string = ['f', 'o', 'o', 'b', 'a', 'r'] := by
  refine ⟨by decide, Token.mk 1 ['f', 'o', 'o', 'b', 'a', 'r'], by decide, rfl⟩

/-- C7 (amended): a transition into a block comment neither emits a token
nor resets the buffer: scanning `/*`, a closer-free body, `*/` and then a
remainder produces exactly the tokens of scanning the remainder alone with
the same buffer (and the line counter advanced by the newlines of the
body). -/
theorem claim7_no_flush_on_comment (ln : Nat) (tok body rest : List Char)
    (h : noCloserIn ('*' :: body) = true) :
    (scanLoop Mode.normal ('/' :: '*' :: body ++ '*' :: '/' :: rest) ln tok).tokens =
      (scanLoop Mode.normal rest (ln + body.count '\n') tok).tokens := by
  have hstep :
      (scanLoop Mode.normal ('/' :: '*' :: body ++ '*' :: '/' :: rest) ln tok).tokens =
        (scanLoop Mode.comment ('*' :: body ++ '*' :: '/' :: rest) ln tok).tokens := by
    simp only [scanLoop, List.head?_cons]
    rw [if_neg (by simp), if_pos (by simp)]
    rfl
  rw [hstep]
  have h2 := comment_traverse_tokens ('*' :: body) ln tok rest h
  simp only [List.cons_append] at h2 ⊢
  rw [h2, List.count_cons]
  simp

/-- C7, witness for the amended theorem at the counterexample's shape. -/
theorem claim7_witness :
    noCloserIn ('*' :: ['c']) = true ∧
    (scanLoop Mode.normal ('/' :: '*' :: ['c'] ++ '*' :: '/' :: ['b', ' ']) 1
      ['f', 'o', 'o']).tokens =
      (scanLoop Mode.normal ['b', ' '] (1 + List.count '\n' ['c'])
        ['f', 'o', 'o']).tokens :=
  ⟨by decide, claim7_no_flush_on_comment 1 ['f', 'o', 'o'] ['c'] ['b', ' '] (by decide)⟩

/-- C8 (confirmed): the output of `tokenize_file` is exactly one formatted
line `<filepath>: line <n> - <message>` for every token and every enabled
mapping whose key set contains the token's text — membership being exact
whole-string equality with a key — in token order, with the enabled mappings
consulted in the order deprecated, cautionary, POSIX, Windows. -/
theorem claim8_exact_match_report
    (filepath contents : String) (cautionary posix windows : Bool) :
    tokenize_file filepath contents cautionary posix windows =
      (parse_file contents).flatMap fun t =>
        (specEnabledMaps cautionary posix windows).flatMap fun d =>
          if hasKey d t.string then [fmt_line filepath t.linenumber (msgOf d t.string)]
          else [] := by
  rw [tokenize_file]
  congr 1
  funext t
  cases cautionary <;> cases posix <;> cases windows <;>
    simp [specEnabledMaps, dict_report_spec]

/-- C9 (confirmed): scanning any input terminates normally with a finite
token list (there is no failure path), and every emitted token has non-empty
text — empty fragments are discarded by the sanitizer's `if item:` filter. -/
theorem claim9_total_nonempty (s : String) (t : Token) :
    tokenizeFileE s = Except.ok (parse_file s) ∧
    (t ∈ parse_file s → t.string ≠ []) :=
  ⟨rfl, fun ht => scan_tokens_nonempty s.toList Mode.normal 1 [] t ht⟩

/-- C9, witness at a concrete input and token. -/
theorem claim9_witness :
    Token.mk 1 ['a', 'b'] ∈ parse_file "ab " ∧
    (Token.mk 1 ['a', 'b']).string ≠ [] :=
  ⟨by decide, (claim9_total_nonempty "ab " (Token.mk 1 ['a', 'b'])).2 (by decide)⟩

/-- C10 (confirmed): with all three flags cleared the output consists of the
deprecated-mapping reports alone, and whatever the flags, the
deprecated-mapping reports are consulted for every token and form a
subsequence of the output. -/
theorem claim10_flag_gating :
    (∀ filepath contents : String,
      tokenize_file filepath contents false false false =
        (parse_file contents).flatMap fun t => dict_report filepath deprecatedDict t) ∧
    (∀ (filepath contents : String) (cautionary posix windows : Bool),
      ((parse_file contents).flatMap fun t => dict_report filepath deprecatedDict t).Sublist
        (tokenize_file filepath contents cautionary posix windows)) := by
  constructor
  · intro filepath contents
    rw [tokenize_file]
    simp
  · intro filepath contents cautionary posix windows
    rw [tokenize_file]
    exact flatMap_sublist _ _ _ fun t =>
      ((List.sublist_append_left _ _).trans
        (List.sublist_append_left _ _)).trans (List.sublist_append_left _ _)
